import Mathlib

/-!
# Verification of the restaurant analytics core

Shallow embedding of the analytical core of the restaurant dashboard
(`app.py`): the filter stage, the menu-engineering aggregation and
classification, the overview KPIs, and the price simulator.  Monetary
amounts are modelled as rationals; dates as integers (any totally
ordered date representation works, only comparisons are used).
-/

namespace Restaurant

/-- One transaction row of the POS table (the columns the analytical
core reads). -/
structure Row where
  order_id : String
  order_date : Int
  order_channel : String
  item_name : String
  category : String
  actual_price : ℚ
  food_cost_per_unit : ℚ
  quantity : Nat
  total_revenue : ℚ
  total_food_cost : ℚ
  contribution_margin : ℚ
  food_cost_pct_row : ℚ
  is_waste : Bool
  deriving DecidableEq, Repr

/-- `filter_data(df, date_range, categories, channels)`: date range is
inclusive on both ends against `order_date`; a non-empty category
(resp. channel) list keeps only matching rows, an empty list imposes
no restriction (Python truthiness of the list). -/
def filter_data (df : List Row) (startDate endDate : Int)
    (categories channels : List String) : List Row :=
  let filtered := df.filter (fun r =>
    decide (startDate ≤ r.order_date) && decide (r.order_date ≤ endDate))
  let filtered2 := if categories.isEmpty then filtered
    else filtered.filter (fun r => decide (r.category ∈ categories))
  if channels.isEmpty then filtered2
  else filtered2.filter (fun r => decide (r.order_channel ∈ channels))

/-- The distinct item names of a table (grouping keys of
`df.groupby('item_name')`). -/
def itemNames (df : List Row) : List String :=
  (df.map Row.item_name).dedup

/-- The rows of the group belonging to one item name. -/
def itemGroup (df : List Row) (name : String) : List Row :=
  df.filter (fun r => decide (r.item_name = name))

/-- Per-item `revenue = Σ total_revenue`. -/
def itemRevenue (df : List Row) (name : String) : ℚ :=
  ((itemGroup df name).map Row.total_revenue).sum

/-- Per-item `margin = Σ contribution_margin`. -/
def itemMargin (df : List Row) (name : String) : ℚ :=
  ((itemGroup df name).map Row.contribution_margin).sum

/-- Per-item `quantity_sold = count(order_id)`: the number of rows of
the group, not the sum of the `quantity` column. -/
def itemQuantitySold (df : List Row) (name : String) : Nat :=
  (itemGroup df name).length

/-- Per-item `margin_per_unit = margin / quantity_sold`. -/
def itemMarginPerUnit (df : List Row) (name : String) : ℚ :=
  itemMargin df name / (itemQuantitySold df name : ℚ)

/-- Median of a list of rationals as pandas computes it: sort, take the
middle element for odd length, the mean of the two middle elements for
even length. -/
def compute_median (xs : List ℚ) : ℚ :=
  let s := List.insertionSort (· ≤ ·) xs
  let n := s.length
  if n % 2 = 1 then s.getD (n / 2) 0
  else if n = 0 then 0
  else (s.getD (n / 2 - 1) 0 + s.getD (n / 2) 0) / 2

/-- `median_revenue`: median of the per-item revenues. -/
def median_revenue (df : List Row) : ℚ :=
  compute_median ((itemNames df).map (itemRevenue df))

/-- `median_margin`: median of the per-item margin-per-unit values. -/
def median_margin (df : List Row) : ℚ :=
  compute_median ((itemNames df).map (itemMarginPerUnit df))

/-- The `classify` decision table of `calculate_menu_engineering`
(ties on either comparison go to the high branch). -/
def classify (revenue margin_per_unit med_revenue med_margin : ℚ) : String :=
  if revenue ≥ med_revenue ∧ margin_per_unit ≥ med_margin then "Star"
  else if revenue ≥ med_revenue ∧ margin_per_unit < med_margin then "Plowhorse"
  else if revenue < med_revenue ∧ margin_per_unit ≥ med_margin then "Puzzle"
  else "Dog"

/-- One row of the `item_stats` frame produced by
`calculate_menu_engineering`. -/
structure ItemStat where
  item_name : String
  revenue : ℚ
  margin : ℚ
  quantity_sold : Nat
  margin_per_unit : ℚ
  classification : String
  deriving DecidableEq, Repr

/-- `calculate_menu_engineering(df)`: group by item, aggregate, compute
the two medians over the per-item values, and classify every item
against them. -/
def calculate_menu_engineering (df : List Row) :
    List ItemStat × ℚ × ℚ :=
  let names := itemNames df
  let medR := median_revenue df
  let medM := median_margin df
  (names.map (fun n =>
    { item_name := n
      revenue := itemRevenue df n
      margin := itemMargin df n
      quantity_sold := itemQuantitySold df n
      margin_per_unit := itemMarginPerUnit df n
      classification := classify (itemRevenue df n) (itemMarginPerUnit df n) medR medM }),
   medR, medM)

/-- Overview KPI: `total_revenue = filtered_df['total_revenue'].sum()`. -/
def total_revenue (df : List Row) : ℚ :=
  (df.map Row.total_revenue).sum

/-- Overview KPI: `total_food_cost = filtered_df['total_food_cost'].sum()`. -/
def total_food_cost (df : List Row) : ℚ :=
  (df.map Row.total_food_cost).sum

/-- Overview KPI: `food_cost_pct`, guarded — `(total_food_cost /
total_revenue * 100) if total_revenue > 0 else 0`. -/
def food_cost_pct (df : List Row) : ℚ :=
  if 0 < total_revenue df then total_food_cost df / total_revenue df * 100 else 0

/-- The distinct order ids of a table. -/
def orderIds (df : List Row) : List String :=
  (df.map Row.order_id).dedup

/-- Overview KPI: `avg_ticket = groupby('order_id')['total_revenue']
.sum().mean()`, unguarded — the mean of an empty series is NaN, which
the embedding renders as `none`. -/
def avg_ticket (df : List Row) : Option ℚ :=
  let sums := (orderIds df).map (fun oid =>
    ((df.filter (fun r => decide (r.order_id = oid))).map Row.total_revenue).sum)
  if sums.isEmpty then none else some (sums.sum / (sums.length : ℚ))

/-- The simulator's volume response:
`-elasticity if price_change > 0 else abs(elasticity / 2)`. -/
def volume_change (price_change elasticity : ℚ) : ℚ :=
  if price_change > 0 then -elasticity else |elasticity / 2|

/-- Mean of a list of rationals (`Series.mean`); only used on
non-empty item groups. -/
def meanQ (xs : List ℚ) : ℚ :=
  xs.sum / (xs.length : ℚ)

/-- Result record of one simulator run (tab 5 projections). -/
structure SimResult where
  new_price : ℚ
  volume_change_pct : ℚ
  new_quantity : ℚ
  new_revenue : ℚ
  new_margin : ℚ
  new_margin_per_unit : ℚ
  new_class : String
  net_impact : ℚ
  deriving DecidableEq, Repr

/-- The price-simulator projection (tab 5): all arithmetic on the
current aggregates of the selected item, `new_quantity` kept
fractional, classification against the unchanged medians. -/
def simulate (current_price current_food_cost current_quantity current_margin
    price_change elasticity med_revenue med_margin : ℚ) : SimResult :=
  let np := current_price * (1 + price_change / 100)
  let vc := volume_change price_change elasticity
  let nq := current_quantity * (1 + vc / 100)
  let nr := np * nq
  let nm := (np - current_food_cost) * nq
  let nmpu := if nq > 0 then nm / nq else 0
  { new_price := np
    volume_change_pct := vc
    new_quantity := nq
    new_revenue := nr
    new_margin := nm
    new_margin_per_unit := nmpu
    new_class := classify nr nmpu med_revenue med_margin
    net_impact := nm - current_margin }

/-- The simulator as invoked from the dashboard: current price and food
cost are the means over the item's filtered rows, current quantity is
the row count, current margin the summed contribution margin, medians
from `calculate_menu_engineering` on the same filtered table. -/
def simulateItem (df : List Row) (name : String)
    (price_change elasticity : ℚ) : SimResult :=
  let item_data := itemGroup df name
  simulate (meanQ (item_data.map Row.actual_price))
    (meanQ (item_data.map Row.food_cost_per_unit))
    (item_data.length : ℚ)
    ((item_data.map Row.contribution_margin).sum)
    price_change elasticity (median_revenue df) (median_margin df)

/-- A sample transaction row used by the concrete witnesses. -/
def sampleRow : Row :=
  { order_id := "ORD-1", order_date := 10, order_channel := "Dine-In"
    item_name := "Burger", category := "Mains", actual_price := 10
    food_cost_per_unit := 4, quantity := 1, total_revenue := 10
    total_food_cost := 4, contribution_margin := 6, food_cost_pct_row := 40
    is_waste := false }

/-- A second sample row, a different item. -/
def sampleRow2 : Row :=
  { order_id := "ORD-2", order_date := 12, order_channel := "Takeout"
    item_name := "Salad", category := "Starters", actual_price := 8
    food_cost_per_unit := 2, quantity := 1, total_revenue := 8
    total_food_cost := 2, contribution_margin := 6, food_cost_pct_row := 25
    is_waste := false }

/-- The item aggregate that `calculate_menu_engineering` produces for
the one-row sample table. -/
def burgerStat : ItemStat :=
  { item_name := "Burger", revenue := 10, margin := 6, quantity_sold := 1,
    margin_per_unit := 6, classification := "Star" }

/-! ## General lemmas -/

theorem sum_map_add (l : List String) (f g : String → ℚ) :
    (l.map (fun n => f n + g n)).sum = (l.map f).sum + (l.map g).sum := by
  induction l with
  | nil => simp
  | cons a t ih => simp only [List.map_cons, List.sum_cons, ih]; ring

theorem sum_ite_not_mem (a : String) (c : ℚ) (l : List String) (h : a ∉ l) :
    (l.map (fun n => if a = n then c else 0)).sum = 0 := by
  induction l with
  | nil => simp
  | cons b t ih =>
    have hab : a ≠ b := fun hab => h (by rw [hab]; exact List.mem_cons_self b t)
    have hat : a ∉ t := fun hm => h (List.mem_cons_of_mem _ hm)
    simp only [List.map_cons, List.sum_cons, if_neg hab, ih hat, add_zero]

theorem sum_ite_mem (l : List String) (a : String) (c : ℚ)
    (hnd : l.Nodup) (h : a ∈ l) :
    (l.map (fun n => if a = n then c else 0)).sum = c := by
  induction l with
  | nil => cases h
  | cons b t ih =>
    rcases List.nodup_cons.mp hnd with ⟨hb, ht⟩
    simp only [List.map_cons, List.sum_cons]
    rcases List.mem_cons.mp h with hab | hat
    · subst hab
      rw [if_pos rfl, sum_ite_not_mem _ _ _ hb, add_zero]
    · have hne : a ≠ b := fun e => hb (e ▸ hat)
      rw [if_neg hne, ih ht hat, zero_add]

/-- Summing a projection group-by-group over a complete duplicate-free
list of keys equals summing it over all rows. -/
theorem grouped_sum (f : Row → ℚ) (names : List String) (hnd : names.Nodup)
    (df : List Row) (hmem : ∀ r ∈ df, r.item_name ∈ names) :
    (names.map (fun n =>
      ((df.filter (fun r => decide (r.item_name = n))).map f).sum)).sum
      = (df.map f).sum := by
  induction df with
  | nil => simp
  | cons r t ih =>
    have hr : r.item_name ∈ names := hmem r (List.mem_cons_self r t)
    have ht : ∀ x ∈ t, x.item_name ∈ names :=
      fun x hx => hmem x (List.mem_cons_of_mem _ hx)
    have hcong : ∀ n ∈ names,
        (((r :: t).filter (fun x => decide (x.item_name = n))).map f).sum
          = (fun n => (if r.item_name = n then f r else 0)
              + ((t.filter (fun x => decide (x.item_name = n))).map f).sum) n := by
      intro n _
      by_cases hc : r.item_name = n
      · simp [List.filter_cons, hc]
      · simp [List.filter_cons, hc]
    rw [List.map_congr_left hcong, sum_map_add, sum_ite_mem _ _ _ hnd hr, ih ht]
    simp

theorem length_eq_sum_quantity (l : List Row) (h : ∀ r ∈ l, r.quantity = 1) :
    l.length = (l.map Row.quantity).sum := by
  induction l with
  | nil => simp
  | cons a t ih =>
    simp only [List.length_cons, List.map_cons, List.sum_cons,
      h a (List.mem_cons_self a t), ih fun r hr => h r (List.mem_cons_of_mem _ hr)]
    omega

/-- The `classify` decision table, fully characterised: which label
comes out for each cell of the (revenue vs median, margin vs median)
grid. -/
theorem classify_cases (rev mpu mR mM : ℚ) :
    (classify rev mpu mR mM = "Star" ↔ rev ≥ mR ∧ mpu ≥ mM) ∧
    (classify rev mpu mR mM = "Plowhorse" ↔ rev ≥ mR ∧ mpu < mM) ∧
    (classify rev mpu mR mM = "Puzzle" ↔ rev < mR ∧ mpu ≥ mM) ∧
    (classify rev mpu mR mM = "Dog" ↔ rev < mR ∧ mpu < mM) := by
  unfold classify
  rcases le_or_lt mR rev with h1 | h1 <;> rcases le_or_lt mM mpu with h2 | h2
  · simp [ge_iff_le, h1, h2, h1.not_lt, h2.not_lt]
  · simp [ge_iff_le, h1, h2, h1.not_lt, h2.not_le]
  · simp [ge_iff_le, h1, h2, h1.not_le, h2.not_lt]
  · simp [ge_iff_le, h1, h2, h1.not_le, h2.not_le]

theorem classify_labels (rev mpu mR mM : ℚ) :
    classify rev mpu mR mM = "Star" ∨ classify rev mpu mR mM = "Plowhorse" ∨
    classify rev mpu mR mM = "Puzzle" ∨ classify rev mpu mR mM = "Dog" := by
  unfold classify
  split_ifs <;> simp

/-! ## The claims -/

/-- C2: the simulator's volume response is asymmetric — a price
increase applies the full elasticity (`volume_change_pct =
-elasticity_pct`), while an unchanged or decreased price applies half
of it (`+elasticity_pct / 2`); concretely, elasticity 20 with price
change +10 gives −20, and with price change 0 or −5 gives +10. -/
theorem volume_change_asymmetry (pc el : ℚ) (h0 : 0 ≤ el) (h30 : el ≤ 30) :
    (0 < pc → volume_change pc el = -el) ∧
    (pc ≤ 0 → volume_change pc el = el / 2) ∧
    volume_change 10 20 = -20 ∧ volume_change 0 20 = 10 ∧
    volume_change (-5) 20 = 10 := by
  refine ⟨fun h => by simp [volume_change, h], fun h => ?_, ?_, ?_, ?_⟩
  · simp only [volume_change]
    rw [if_neg (not_lt.mpr h), abs_of_nonneg (by linarith)]
  · norm_num [volume_change]
  · simp only [volume_change]
    rw [if_neg (by norm_num), show ((20:ℚ)/2) = 10 by norm_num,
      abs_of_nonneg (by norm_num : (0:ℚ) ≤ 10)]
  · simp only [volume_change]
    rw [if_neg (by norm_num), show ((20:ℚ)/2) = 10 by norm_num,
      abs_of_nonneg (by norm_num : (0:ℚ) ≤ 10)]

theorem volume_change_asymmetry_witness :
    (0 < (10:ℚ) → volume_change 10 20 = -20) ∧
    ((10:ℚ) ≤ 0 → volume_change 10 20 = 20 / 2) ∧
    volume_change 10 20 = -20 ∧ volume_change 0 20 = 10 ∧
    volume_change (-5) 20 = 10 :=
  volume_change_asymmetry 10 20 (by norm_num) (by norm_num)

/-- C3 counterexample: on the empty filtered table `avg_ticket` — the
mean of the per-order revenue sums — is NaN (embedded as `none`), not
the fallback 0 the claim demands. -/
theorem avg_ticket_empty_not_zero :
    avg_ticket ([] : List Row) = none ∧ avg_ticket ([] : List Row) ≠ some 0 := by
  constructor <;> simp [avg_ticket, orderIds]

/-- C3 amended: on the empty filtered table the overall food-cost
percentage falls back to 0 (its division is explicitly guarded), but
the average ticket is the unguarded mean of an empty series and is NaN
(`none`), not 0. -/
theorem empty_table_kpi_fallbacks :
    food_cost_pct ([] : List Row) = 0 ∧ avg_ticket ([] : List Row) = none := by
  constructor
  · simp [food_cost_pct, total_revenue]
  · simp [avg_ticket, orderIds]

/-- C8: `filter_data` keeps exactly the rows whose `order_date` lies in
the inclusive range and whose category/channel is in the respective
list whenever that list is non-empty (an empty list imposes no
restriction), and its output is a subsequence of the input — order
preserved, rows intact, nothing added or duplicated. -/
theorem filter_data_spec (df : List Row) (s e : Int)
    (cats chans : List String) :
    (∀ r : Row, r ∈ filter_data df s e cats chans ↔
      r ∈ df ∧ (s ≤ r.order_date ∧ r.order_date ≤ e) ∧
        (cats ≠ [] → r.category ∈ cats) ∧
        (chans ≠ [] → r.order_channel ∈ chans)) ∧
    (filter_data df s e cats chans).Sublist df := by
  constructor
  · intro r
    unfold filter_data
    by_cases hc : cats.isEmpty <;> by_cases hh : chans.isEmpty <;>
      simp_all [List.mem_filter, List.isEmpty_iff] <;> tauto
  · unfold filter_data
    by_cases hc : cats.isEmpty <;> by_cases hh : chans.isEmpty <;>
      simp only [hc, hh, if_pos, if_neg, Bool.false_eq_true, if_false, if_true] <;>
      first
        | exact List.filter_sublist _
        | exact (List.filter_sublist _).trans (List.filter_sublist _)
        | exact ((List.filter_sublist _).trans (List.filter_sublist _)).trans
            (List.filter_sublist _)

/-- C9: an inverted date range (start strictly after end) makes
`filter_data` return the empty table, whatever the other filters are —
a valid query with an empty result, not an error. -/
theorem filter_data_inverted_range_empty (df : List Row) (s e : Int)
    (cats chans : List String) (h : e < s) :
    filter_data df s e cats chans = [] := by
  unfold filter_data
  have hdate : df.filter (fun r =>
      decide (s ≤ r.order_date) && decide (r.order_date ≤ e)) = [] := by
    rw [List.filter_eq_nil_iff]
    intro r _
    simp only [Bool.and_eq_true, decide_eq_true_eq, not_and]
    intro h1 h2
    omega
  rw [hdate]
  by_cases hc : cats.isEmpty <;> by_cases hh : chans.isEmpty <;> simp [hc, hh]

theorem filter_data_inverted_range_empty_witness :
    filter_data [sampleRow, sampleRow2] 5 3 ["Mains"] [] = [] :=
  filter_data_inverted_range_empty [sampleRow, sampleRow2] 5 3 ["Mains"] []
    (by norm_num)

/-- Concrete evaluation of the menu-engineering pipeline on the sample
table, used by the witnesses. -/
theorem calc_sample_eval :
    calculate_menu_engineering [sampleRow] = ([burgerStat], 10, 6) := by
  norm_num [calculate_menu_engineering, itemNames, itemRevenue, itemMargin,
    itemQuantitySold, itemMarginPerUnit, itemGroup, median_revenue,
    median_margin, compute_median, classify, sampleRow, burgerStat,
    List.insertionSort, List.orderedInsert, List.dedup]

/-- C1: every item aggregate's classification is exactly one of Star,
Plowhorse, Puzzle, Dog, determined by the decision table on (revenue ≥
median revenue, margin per unit ≥ median margin) with ties going to the
high branch — no item unclassified or double-classified. -/
theorem classification_decision_table (df : List Row) (s : ItemStat)
    (h : s ∈ (calculate_menu_engineering df).1) :
    (s.classification = "Star" ∨ s.classification = "Plowhorse" ∨
      s.classification = "Puzzle" ∨ s.classification = "Dog") ∧
    (s.classification = "Star" ↔
      s.revenue ≥ (calculate_menu_engineering df).2.1 ∧
      s.margin_per_unit ≥ (calculate_menu_engineering df).2.2) ∧
    (s.classification = "Plowhorse" ↔
      s.revenue ≥ (calculate_menu_engineering df).2.1 ∧
      s.margin_per_unit < (calculate_menu_engineering df).2.2) ∧
    (s.classification = "Puzzle" ↔
      s.revenue < (calculate_menu_engineering df).2.1 ∧
      s.margin_per_unit ≥ (calculate_menu_engineering df).2.2) ∧
    (s.classification = "Dog" ↔
      s.revenue < (calculate_menu_engineering df).2.1 ∧
      s.margin_per_unit < (calculate_menu_engineering df).2.2) := by
  simp only [calculate_menu_engineering, List.mem_map] at h
  obtain ⟨n, hn, rfl⟩ := h
  exact ⟨classify_labels _ _ _ _,
    (classify_cases _ _ _ _).1, (classify_cases _ _ _ _).2.1,
    (classify_cases _ _ _ _).2.2.1, (classify_cases _ _ _ _).2.2.2⟩

theorem classification_decision_table_witness :
    (burgerStat.classification = "Star" ∨ burgerStat.classification = "Plowhorse" ∨
      burgerStat.classification = "Puzzle" ∨ burgerStat.classification = "Dog") ∧
    (burgerStat.classification = "Star" ↔
      burgerStat.revenue ≥ (calculate_menu_engineering [sampleRow]).2.1 ∧
      burgerStat.margin_per_unit ≥ (calculate_menu_engineering [sampleRow]).2.2) ∧
    (burgerStat.classification = "Plowhorse" ↔
      burgerStat.revenue ≥ (calculate_menu_engineering [sampleRow]).2.1 ∧
      burgerStat.margin_per_unit < (calculate_menu_engineering [sampleRow]).2.2) ∧
    (burgerStat.classification = "Puzzle" ↔
      burgerStat.revenue < (calculate_menu_engineering [sampleRow]).2.1 ∧
      burgerStat.margin_per_unit ≥ (calculate_menu_engineering [sampleRow]).2.2) ∧
    (burgerStat.classification = "Dog" ↔
      burgerStat.revenue < (calculate_menu_engineering [sampleRow]).2.1 ∧
      burgerStat.margin_per_unit < (calculate_menu_engineering [sampleRow]).2.2) :=
  classification_decision_table [sampleRow] burgerStat
    (by rw [calc_sample_eval]; exact List.mem_singleton.mpr rfl)

/-- C5: each item aggregate has revenue = Σ total_revenue, margin =
Σ contribution_margin, quantity_sold = the row count of its group (not
Σ quantity), margin_per_unit = margin / quantity_sold; quantity_sold
coincides with Σ quantity when every row has quantity 1. -/
theorem item_aggregation_fields (df : List Row) (s : ItemStat)
    (h : s ∈ (calculate_menu_engineering df).1) :
    s.revenue = ((itemGroup df s.item_name).map Row.total_revenue).sum ∧
    s.margin = ((itemGroup df s.item_name).map Row.contribution_margin).sum ∧
    s.quantity_sold = (itemGroup df s.item_name).length ∧
    s.margin_per_unit = s.margin / (s.quantity_sold : ℚ) ∧
    ((∀ r ∈ df, r.quantity = 1) →
      s.quantity_sold = ((itemGroup df s.item_name).map Row.quantity).sum) := by
  simp only [calculate_menu_engineering, List.mem_map] at h
  obtain ⟨n, hn, rfl⟩ := h
  refine ⟨rfl, rfl, rfl, rfl, fun hq => ?_⟩
  exact length_eq_sum_quantity _ fun r hr => hq r (List.mem_filter.mp hr).1

theorem item_aggregation_fields_witness :
    burgerStat.revenue
        = ((itemGroup [sampleRow] burgerStat.item_name).map Row.total_revenue).sum ∧
    burgerStat.margin
        = ((itemGroup [sampleRow] burgerStat.item_name).map Row.contribution_margin).sum ∧
    burgerStat.quantity_sold = (itemGroup [sampleRow] burgerStat.item_name).length ∧
    burgerStat.margin_per_unit = burgerStat.margin / (burgerStat.quantity_sold : ℚ) ∧
    ((∀ r ∈ [sampleRow], r.quantity = 1) →
      burgerStat.quantity_sold
        = ((itemGroup [sampleRow] burgerStat.item_name).map Row.quantity).sum) :=
  item_aggregation_fields [sampleRow] burgerStat
    (by rw [calc_sample_eval]; exact List.mem_singleton.mpr rfl)

/-- C6: the two medians returned by `calculate_menu_engineering` are
the medians of the per-item revenue and margin-per-unit columns of the
item aggregates (one value per item), computed with linear
interpolation for even counts: median [10,20,30] = 20 and
median [10,20] = 15. -/
theorem median_computation (df : List Row) (h : df ≠ []) :
    (calculate_menu_engineering df).2.1
        = compute_median (((calculate_menu_engineering df).1).map ItemStat.revenue) ∧
    (calculate_menu_engineering df).2.2
        = compute_median (((calculate_menu_engineering df).1).map ItemStat.margin_per_unit) ∧
    compute_median [10, 20, 30] = 20 ∧ compute_median [10, 20] = 15 := by
  refine ⟨?_, ?_, ?_, ?_⟩
  · simp only [calculate_menu_engineering, List.map_map]
    rfl
  · simp only [calculate_menu_engineering, List.map_map]
    rfl
  · norm_num [compute_median, List.insertionSort, List.orderedInsert]
  · norm_num [compute_median, List.insertionSort, List.orderedInsert]

theorem median_computation_witness :
    (calculate_menu_engineering [sampleRow]).2.1
        = compute_median (((calculate_menu_engineering [sampleRow]).1).map ItemStat.revenue) ∧
    (calculate_menu_engineering [sampleRow]).2.2
        = compute_median (((calculate_menu_engineering [sampleRow]).1).map ItemStat.margin_per_unit) ∧
    compute_median [10, 20, 30] = 20 ∧ compute_median [10, 20] = 15 :=
  median_computation [sampleRow] (by simp)

/-- C7: the per-item revenues produced by `calculate_menu_engineering`
sum to the total revenue of the filtered rows — summation distributes
over the group-by-item partition. -/
theorem sum_item_revenue_eq_total (df : List Row) :
    (((calculate_menu_engineering df).1).map ItemStat.revenue).sum
      = (df.map Row.total_revenue).sum := by
  have h := grouped_sum Row.total_revenue (itemNames df) (List.nodup_dedup _) df
    (fun r hr => List.mem_dedup.mpr (List.mem_map_of_mem _ hr))
  calc (((calculate_menu_engineering df).1).map ItemStat.revenue).sum
      = ((itemNames df).map (fun n =>
          ((df.filter (fun r => decide (r.item_name = n))).map Row.total_revenue).sum)).sum := by
        simp only [calculate_menu_engineering, List.map_map]
        rfl
    _ = (df.map Row.total_revenue).sum := h

/-- C4: the simulator's projections satisfy the spec's formulas —
price scaled by the price change, fractional volume scaled by the
volume change, revenue and margin from the new price with food cost
per unit held constant, margin per unit guarded by `new_quantity > 0`
with fallback 0, and net impact relative to the item's summed
contribution margin under the current filter. -/
theorem simulator_projections (df : List Row) (name : String) (pc el : ℚ)
    (h : 0 < (itemGroup df name).length) :
    (simulateItem df name pc el).volume_change_pct = volume_change pc el ∧
    (simulateItem df name pc el).new_price
        = meanQ ((itemGroup df name).map Row.actual_price) * (1 + pc / 100) ∧
    (simulateItem df name pc el).new_quantity
        = ((itemGroup df name).length : ℚ)
            * (1 + (simulateItem df name pc el).volume_change_pct / 100) ∧
    (simulateItem df name pc el).new_revenue
        = (simulateItem df name pc el).new_price
            * (simulateItem df name pc el).new_quantity ∧
    (simulateItem df name pc el).new_margin
        = ((simulateItem df name pc el).new_price
            - meanQ ((itemGroup df name).map Row.food_cost_per_unit))
            * (simulateItem df name pc el).new_quantity ∧
    (0 < (simulateItem df name pc el).new_quantity →
      (simulateItem df name pc el).new_margin_per_unit
        = (simulateItem df name pc el).new_margin
            / (simulateItem df name pc el).new_quantity) ∧
    (¬ 0 < (simulateItem df name pc el).new_quantity →
      (simulateItem df name pc el).new_margin_per_unit = 0) ∧
    (simulateItem df name pc el).net_impact
        = (simulateItem df name pc el).new_margin
            - ((itemGroup df name).map Row.contribution_margin).sum := by
  refine ⟨rfl, rfl, rfl, rfl, rfl, fun hpos => ?_, fun hneg => ?_, rfl⟩
  · simp only [simulateItem, simulate] at hpos ⊢
    rw [if_pos hpos]
  · simp only [simulateItem, simulate] at hneg ⊢
    rw [if_neg hneg]

theorem simulator_projections_witness :
    (simulateItem [sampleRow] "Burger" 10 20).volume_change_pct = volume_change 10 20 ∧
    (simulateItem [sampleRow] "Burger" 10 20).new_price
        = meanQ ((itemGroup [sampleRow] "Burger").map Row.actual_price) * (1 + 10 / 100) ∧
    (simulateItem [sampleRow] "Burger" 10 20).new_quantity
        = ((itemGroup [sampleRow] "Burger").length : ℚ)
            * (1 + (simulateItem [sampleRow] "Burger" 10 20).volume_change_pct / 100) ∧
    (simulateItem [sampleRow] "Burger" 10 20).new_revenue
        = (simulateItem [sampleRow] "Burger" 10 20).new_price
            * (simulateItem [sampleRow] "Burger" 10 20).new_quantity ∧
    (simulateItem [sampleRow] "Burger" 10 20).new_margin
        = ((simulateItem [sampleRow] "Burger" 10 20).new_price
            - meanQ ((itemGroup [sampleRow] "Burger").map Row.food_cost_per_unit))
            * (simulateItem [sampleRow] "Burger" 10 20).new_quantity ∧
    (0 < (simulateItem [sampleRow] "Burger" 10 20).new_quantity →
      (simulateItem [sampleRow] "Burger" 10 20).new_margin_per_unit
        = (simulateItem [sampleRow] "Burger" 10 20).new_margin
            / (simulateItem [sampleRow] "Burger" 10 20).new_quantity) ∧
    (¬ 0 < (simulateItem [sampleRow] "Burger" 10 20).new_quantity →
      (simulateItem [sampleRow] "Burger" 10 20).new_margin_per_unit = 0) ∧
    (simulateItem [sampleRow] "Burger" 10 20).net_impact
        = (simulateItem [sampleRow] "Burger" 10 20).new_margin
            - ((itemGroup [sampleRow] "Burger").map Row.contribution_margin).sum :=
  simulator_projections [sampleRow] "Burger" 10 20 (by decide)

/-- C10 (implicit): with a positive current quantity, a price change
in [-20, 30] and an elasticity in [0, 30], the projected quantity is at
least 70% of the current one, hence positive — the `else 0` fallback
for margin per unit is unreachable and the projected margin per unit
is exactly the new price minus the food cost per unit. -/
theorem simulator_quantity_positive (cp fc q cm pc el mR mM : ℚ)
    (hq : 0 < q) (hpc1 : -20 ≤ pc) (hpc2 : pc ≤ 30)
    (hel1 : 0 ≤ el) (hel2 : el ≤ 30) :
    7/10 * q ≤ (simulate cp fc q cm pc el mR mM).new_quantity ∧
    0 < (simulate cp fc q cm pc el mR mM).new_quantity ∧
    (simulate cp fc q cm pc el mR mM).new_margin_per_unit
      = (simulate cp fc q cm pc el mR mM).new_price - fc := by
  have hvc1 : -30 ≤ volume_change pc el := by
    simp only [volume_change]
    split_ifs with h
    · linarith
    · rw [abs_of_nonneg (by linarith : (0:ℚ) ≤ el / 2)]; linarith
  have h1 : (7:ℚ)/10 ≤ 1 + volume_change pc el / 100 := by linarith
  have hq1 : 7/10 * q ≤ q * (1 + volume_change pc el / 100) := by nlinarith
  have hpos : 0 < q * (1 + volume_change pc el / 100) :=
    lt_of_lt_of_le (by linarith) hq1
  refine ⟨hq1, hpos, ?_⟩
  simp only [simulate]
  rw [if_pos hpos, mul_div_cancel_right₀ _ (ne_of_gt hpos)]

theorem simulator_quantity_positive_witness :
    7/10 * 100 ≤ (simulate 10 4 100 600 10 20 0 0).new_quantity ∧
    0 < (simulate 10 4 100 600 10 20 0 0).new_quantity ∧
    (simulate 10 4 100 600 10 20 0 0).new_margin_per_unit
      = (simulate 10 4 100 600 10 20 0 0).new_price - 4 :=
  simulator_quantity_positive 10 4 100 600 10 20 0 0 (by norm_num)
    (by norm_num) (by norm_num) (by norm_num) (by norm_num)

end Restaurant
